import Mathlib

/-!
# Verification of the climate-change EDA dashboard (`app.py`)

Shallow embedding of the dashboard's data pipeline:
CSV load → positional column rename → median imputation of numeric columns →
per-country aggregation → country filter → chart-view decisions.

Numeric cells are modelled as `Option ℚ` (`none` = a missing value / NaN in
pandas); `Year` is an integer and `Country` a string, matching the renamed
schema of `load_data`.
-/

/-- The eight numeric (non-`Year`) columns of the renamed table.  These are the
columns `select_dtypes(include=np.number)` yields, minus `Year`, which the
imputation loop skips. -/
inductive NumField
  | avgTemp | co2 | seaLevel | rainfall | population | renewable
  | extremeWeather | forestArea
  deriving DecidableEq, Repr

/-- All numeric fields, in the column order of the renamed table. -/
def allNumFields : List NumField :=
  [.avgTemp, .co2, .seaLevel, .rainfall, .population, .renewable,
   .extremeWeather, .forestArea]

/-- One row of the observation table after renaming: `Year`, `Country`, and the
eight numeric indicators (possibly missing). -/
structure Row where
  year : Int
  country : String
  vals : NumField → Option ℚ

/-- Column `f` of a table, missing entries included (`df[col]`). -/
def colRaw (f : NumField) (df : List Row) : List (Option ℚ) :=
  df.map (fun r => r.vals f)

/-- The non-missing entries of column `f` (what pandas statistics skip NaN to). -/
def colPresent (f : NumField) (df : List Row) : List ℚ :=
  df.filterMap (fun r => r.vals f)

/-- `Series.median()`: sort the non-missing values; the middle value for odd
count, the average of the two middle values for even count; NaN (`none`) for an
empty/all-missing series. -/
def medianQ (xs : List ℚ) : Option ℚ :=
  if xs = [] then none
  else
    let s := List.insertionSort (fun a b : ℚ => a ≤ b) xs
    let n := s.length
    if n % 2 = 1 then some (s.getD (n / 2) 0)
    else some ((s.getD (n / 2 - 1) 0 + s.getD (n / 2) 0) / 2)

/-- Overwrite field `f` of a row with its value, filling a missing entry with `m`. -/
def fillField (f : NumField) (m : ℚ) (r : Row) : Row :=
  { r with vals := fun g => if g = f then some ((r.vals f).getD m) else r.vals g }

/-- `df[col] = df[col].fillna(df[col].median())` for one column: if the median is
NaN (all values missing) the fill is a no-op, otherwise every missing entry of
the column becomes the median and every present entry is kept. -/
def imputeOne (df : List Row) (f : NumField) : List Row :=
  match medianQ (colPresent f df) with
  | none => df
  | some m => df.map (fillField f m)

/-- The imputation loop of `load_data`: fill every numeric column except `Year`
with its own median, computed over the full table. -/
def cleanData (df : List Row) : List Row :=
  allNumFields.foldl imputeOne df

/-- The effect of the fill on one whole column, as a list transformation. -/
def imputeColList (xs : List (Option ℚ)) : List (Option ℚ) :=
  match medianQ (xs.filterMap id) with
  | none => xs
  | some m => xs.map (fun o => some (o.getD m))

theorem colPresent_eq_filterMap (f : NumField) (df : List Row) :
    colPresent f df = (colRaw f df).filterMap id := by
  simp [colPresent, colRaw, List.filterMap_map, Function.comp]

theorem colRaw_imputeOne (f g : NumField) (df : List Row) :
    colRaw g (imputeOne df f) =
      if g = f then imputeColList (colRaw g df) else colRaw g df := by
  by_cases hgf : g = f
  · subst hgf
    simp only [imputeOne, imputeColList, if_pos rfl, ← colPresent_eq_filterMap]
    cases medianQ (colPresent g df) with
    | none => rfl
    | some m =>
      simp [colRaw, fillField, List.map_map, Function.comp]
  · simp only [imputeOne, if_neg hgf]
    cases medianQ (colPresent f df) with
    | none => rfl
    | some m =>
      simp [colRaw, fillField, List.map_map, Function.comp, hgf]

theorem yearCountry_imputeOne (f : NumField) (df : List Row) :
    (imputeOne df f).map (fun r => (r.year, r.country)) =
      df.map (fun r => (r.year, r.country)) := by
  unfold imputeOne
  cases medianQ (colPresent f df) with
  | none => rfl
  | some m => simp [fillField, List.map_map, Function.comp]

theorem colRaw_foldl (L : List NumField) (hL : L.Nodup) (g : NumField)
    (df : List Row) :
    colRaw g (L.foldl imputeOne df) =
      if g ∈ L then imputeColList (colRaw g df) else colRaw g df := by
  induction L generalizing df with
  | nil => simp
  | cons f L ih =>
    have hf : f ∉ L := (List.nodup_cons.mp hL).1
    have hL' : L.Nodup := (List.nodup_cons.mp hL).2
    simp only [List.foldl_cons]
    rw [ih hL']
    by_cases hgf : g = f
    · subst hgf
      rw [if_neg hf, if_pos (List.mem_cons_self g L), colRaw_imputeOne,
        if_pos rfl]
    · rw [colRaw_imputeOne, if_neg hgf]
      by_cases hgL : g ∈ L
      · rw [if_pos hgL, if_pos (List.mem_cons_of_mem f hgL)]
      · rw [if_neg hgL, if_neg (by simp [hgf, hgL])]

theorem yearCountry_foldl (L : List NumField) (df : List Row) :
    (L.foldl imputeOne df).map (fun r => (r.year, r.country)) =
      df.map (fun r => (r.year, r.country)) := by
  induction L generalizing df with
  | nil => rfl
  | cons f L ih => rw [List.foldl_cons, ih, yearCountry_imputeOne]

theorem colRaw_cleanData (g : NumField) (df : List Row) :
    colRaw g (cleanData df) = imputeColList (colRaw g df) := by
  have hmem : g ∈ allNumFields := by cases g <;> simp [allNumFields]
  have hnd : allNumFields.Nodup := by decide
  rw [cleanData, colRaw_foldl allNumFields hnd g df, if_pos hmem]

theorem yearCountry_cleanData (df : List Row) :
    (cleanData df).map (fun r => (r.year, r.country)) =
      df.map (fun r => (r.year, r.country)) :=
  yearCountry_foldl allNumFields df

theorem length_cleanData (df : List Row) :
    (cleanData df).length = df.length := by
  have h := congrArg List.length (yearCountry_cleanData df)
  simpa using h

/-! ## Country-level aggregation (`country_stats`) -/

/-- One row of the country summary table produced by `groupby('Country').agg(...)`.
Averages are `Option ℚ` because the mean of an all-missing group is NaN; the
event total is plain `ℚ` because pandas `sum` of an all-NaN group is `0`. -/
structure CountryStat where
  country : String
  avgTemp : Option ℚ
  avgCO2 : Option ℚ
  avgSeaLevel : Option ℚ
  avgRainfall : Option ℚ
  avgRenewable : Option ℚ
  totalExtreme : ℚ
  avgForest : Option ℚ
  avgPopulation : Option ℚ
  deriving DecidableEq

/-- pandas `mean`: skip missing values; NaN (`none`) when nothing is present. -/
def meanQ (xs : List ℚ) : Option ℚ :=
  if xs = [] then none else some (xs.sum / xs.length)

/-- The rows of one `groupby('Country')` group. -/
def groupRows (c : String) (df : List Row) : List Row :=
  df.filter (fun r => r.country = c)

/-- The aggregate row for country `c`: mean of every indicator except the
extreme-weather count, which is summed. -/
def aggOf (df : List Row) (c : String) : CountryStat :=
  { country := c
  , avgTemp := meanQ (colPresent .avgTemp (groupRows c df))
  , avgCO2 := meanQ (colPresent .co2 (groupRows c df))
  , avgSeaLevel := meanQ (colPresent .seaLevel (groupRows c df))
  , avgRainfall := meanQ (colPresent .rainfall (groupRows c df))
  , avgRenewable := meanQ (colPresent .renewable (groupRows c df))
  , totalExtreme := (colPresent .extremeWeather (groupRows c df)).sum
  , avgForest := meanQ (colPresent .forestArea (groupRows c df))
  , avgPopulation := meanQ (colPresent .population (groupRows c df)) }

/-- Descending order on mean-CO2 keys, missing (NaN) keys last — the order
`sort_values(by='Avg_CO2_Emissions', ascending=False)` produces. -/
def co2GE (a b : Option ℚ) : Prop :=
  match a, b with
  | _, none => True
  | none, some _ => False
  | some x, some y => y ≤ x

instance : DecidableRel co2GE := fun a b => by
  cases a <;> cases b <;> simp [co2GE] <;> infer_instance

/-- Row order of the sorted summary table. -/
def statGE (a b : CountryStat) : Prop := co2GE a.avgCO2 b.avgCO2

instance : DecidableRel statGE := fun a b => by
  unfold statGE; infer_instance

instance : IsTotal CountryStat statGE where
  total a b := by
    unfold statGE co2GE
    cases a.avgCO2 <;> cases b.avgCO2 <;> simp [le_total]

instance : IsTrans CountryStat statGE where
  trans a b c hab hbc := by
    unfold statGE co2GE at *
    cases ha : a.avgCO2 <;> cases hb : b.avgCO2 <;> cases hc : c.avgCO2 <;>
      simp_all <;> exact le_trans hbc hab

/-- The distinct country values, in order of first appearance. -/
def countryKeys (df : List Row) : List String :=
  (df.map (fun r => r.country)).dedup

/-- `country_stats`: group by country, aggregate, and sort descending by mean
CO2 emissions. -/
def countryStats (df : List Row) : List CountryStat :=
  List.insertionSort statGE ((countryKeys df).map (aggOf df))

/-- `country_stats.nlargest(n, 'Avg_CO2_Emissions')`: the `n` rows with the
largest mean CO2 emissions, in descending order. -/
def nlargestCO2 (n : ℕ) (stats : List CountryStat) : List CountryStat :=
  (List.insertionSort statGE stats).take n

/-- Lookup of one country's aggregate row in the summary table. -/
def statFor (df : List Row) (c : String) : Option CountryStat :=
  (countryStats df).find? (fun s => s.country = c)

/-! ## Raw CSV, positional rename, and the load pipeline -/

/-- One raw cell of the source CSV as pandas types it. -/
inductive Cell
  | intVal (n : Int)
  | strVal (s : String)
  | numVal (v : ℚ)
  | missing
  deriving DecidableEq, Repr

/-- A parsed CSV: a header of column names and rows of cells. -/
structure RawTable where
  header : List String
  rows : List (List Cell)

/-- The fixed list of ten labels assigned in `load_data`. -/
def expectedColumns : List String :=
  ["Year", "Country", "Avg_Temperature_¬∞C", "CO2_Emissions_Tons/Capita",
   "Sea_Level_Rise_mm", "Rainfall_mm", "Population", "Renewable_Energy_%",
   "Extreme_Weather_Events", "Forest_Area_%"]

/-- `df.columns = [...]`: pandas replaces the labels positionally, but raises a
length-mismatch `ValueError` when the file's column count differs from the
length of the new list.  The original header plays no role beyond its length. -/
def renameColumns (t : RawTable) : Except String RawTable :=
  if t.header.length = expectedColumns.length then
    Except.ok { header := expectedColumns, rows := t.rows }
  else
    Except.error "Length mismatch"

/-- The position each numeric field occupies in the renamed table. -/
def fieldIndex : NumField → ℕ
  | .avgTemp => 2
  | .co2 => 3
  | .seaLevel => 4
  | .rainfall => 5
  | .population => 6
  | .renewable => 7
  | .extremeWeather => 8
  | .forestArea => 9

/-- Read one renamed CSV row into an observation row by position: column 0 is
`Year`, column 1 is `Country`, columns 2-9 are the numeric indicators. -/
def toRow (cells : List Cell) : Row :=
  { year := match cells.getD 0 Cell.missing with
      | .intVal n => n
      | _ => 0
  , country := match cells.getD 1 Cell.missing with
      | .strVal s => s
      | _ => ""
  , vals := fun f => match cells.getD (fieldIndex f) Cell.missing with
      | .numVal v => some v
      | .intVal n => some (n : ℚ)
      | _ => none }

/-- The error shown when the CSV file is absent. -/
def fileNotFoundMsg : String :=
  "Error: climate_change_dataset.csv not found. Please upload the file or ensure it is in the correct directory."

/-- The prefix of the generic load/transform error message. -/
def loadErrorPrefix : String :=
  "An error occurred during data loading or preprocessing: "

/-- Result of `load_data` followed by `st.stop` on error: either both tables, or
a halted session carrying only the displayed message. -/
inductive LoadResult
  | ok (df : List Row) (stats : List CountryStat)
  | halted (msg : String)

/-- `load_data`: a missing file halts with the file-not-found message; any
failure during the transform (here, the positional rename's length mismatch)
halts with the generic message; otherwise rename, impute, aggregate. -/
def loadData (file : Option RawTable) : LoadResult :=
  match file with
  | none => .halted fileNotFoundMsg
  | some t =>
    match renameColumns t with
    | .error e => .halted (loadErrorPrefix ++ e)
    | .ok t2 =>
      let df := cleanData (t2.rows.map toRow)
      .ok df (countryStats df)

/-! ## Country filter and the chart views -/

/-- The country filter: a specific selection keeps only matching rows, the
sentinel `"All"` keeps the table as is. -/
def dfFiltered (sel : String) (df : List Row) : List Row :=
  if sel ≠ "All" then df.filter (fun r => r.country = sel) else df

/-- The distinct years of the filtered table, ascending — the index of
`df_filtered.groupby('Year')`. -/
def yearsOf (table : List Row) : List Int :=
  List.insertionSort (fun a b : Int => a ≤ b) (table.map (fun r => r.year)).dedup

/-- The per-year mean of metric `f` over the filtered table. -/
def yearlyMean (f : NumField) (y : Int) (table : List Row) : Option ℚ :=
  meanQ (colPresent f (table.filter (fun r => r.year = y)))

/-- The trend view: an informational prompt, or one line per metric. -/
inductive TrendView
  | prompt
  | chart (lines : List (NumField × List (Int × Option ℚ)))

/-- The yearly-trends renderer: with no metric selected it shows a prompt;
otherwise each selected metric is one line of (year, per-year mean) points. -/
def trendView (metrics : List NumField) (table : List Row) : TrendView :=
  if metrics = [] then .prompt
  else
    .chart (metrics.map fun m =>
      (m, (yearsOf table).map fun y => (y, yearlyMean m y table)))

/-! ## Pearson correlation view -/

/-- Pairwise-complete observations of two columns: the rows where both entries
are present, as pandas `corr` pairs them. -/
def pairedVals (xs ys : List (Option ℚ)) : List (ℚ × ℚ) :=
  (xs.zip ys).filterMap fun p =>
    match p.1, p.2 with
    | some a, some b => some (a, b)
    | _, _ => none

/-- Centered second moments of a paired sample: `(Sxy, Sxx, Syy)`, the sums of
products of deviations from the means.  The `1/(n-1)` factors of covariance and
variance cancel in the correlation, so they are omitted. -/
def corrStats (ps : List (ℚ × ℚ)) : ℚ × ℚ × ℚ :=
  let n : ℚ := ps.length
  let mx := (ps.map Prod.fst).sum / n
  let my := (ps.map Prod.snd).sum / n
  ((ps.map fun p => (p.1 - mx) * (p.2 - my)).sum,
   (ps.map fun p => (p.1 - mx) ^ 2).sum,
   (ps.map fun p => (p.2 - my) ^ 2).sum)

/-- An exact representation of one Pearson coefficient `Sxy / sqrt(Sxx * Syy)`:
the numerator and the square of the denominator, both rational. -/
structure CorrVal where
  num : ℚ
  den : ℚ
  deriving DecidableEq, Repr

/-- One entry of `df[metrics].corr()`: NaN (`none`) when either column has zero
variance over the paired observations (pandas' zero divisor), the exact
coefficient representation otherwise. -/
def corrEntry (xs ys : List (Option ℚ)) : Option CorrVal :=
  let s := corrStats (pairedVals xs ys)
  if s.2.1 * s.2.2 = 0 then none else some ⟨s.1, s.2.1 * s.2.2⟩

/-- The represented coefficient equals `1.0`: with `den > 0`, the real number
`num / sqrt den` is `1` exactly when `num` is nonnegative and `num ^ 2 = den`. -/
def corrIsOne (e : Option CorrVal) : Prop :=
  ∃ c, e = some c ∧ 0 ≤ c.num ∧ c.num ^ 2 = c.den

/-- The correlation view: a prompt, or the annotated matrix. -/
inductive CorrView
  | prompt
  | matrixView (m : List (List (Option CorrVal)))

/-- The heatmap renderer: fewer than two selected metrics shows a prompt;
otherwise the pairwise Pearson matrix of the selected columns of the filtered
table. -/
def corrViewOf (metrics : List NumField) (table : List Row) : CorrView :=
  if metrics.length < 2 then .prompt
  else
    .matrixView (metrics.map fun f =>
      metrics.map fun g => corrEntry (colRaw f table) (colRaw g table))

/-! ## Scatter view -/

/-- The cell of the renamed table a column name denotes in one row. -/
def cellOf (name : String) (r : Row) : Cell :=
  if name = "Year" then .intVal r.year
  else if name = "Country" then .strVal r.country
  else if name = "Avg_Temperature_¬∞C" then
    match r.vals .avgTemp with | some v => .numVal v | none => .missing
  else if name = "CO2_Emissions_Tons/Capita" then
    match r.vals .co2 with | some v => .numVal v | none => .missing
  else if name = "Sea_Level_Rise_mm" then
    match r.vals .seaLevel with | some v => .numVal v | none => .missing
  else if name = "Rainfall_mm" then
    match r.vals .rainfall with | some v => .numVal v | none => .missing
  else if name = "Population" then
    match r.vals .population with | some v => .numVal v | none => .missing
  else if name = "Renewable_Energy_%" then
    match r.vals .renewable with | some v => .numVal v | none => .missing
  else if name = "Extreme_Weather_Events" then
    match r.vals .extremeWeather with | some v => .numVal v | none => .missing
  else if name = "Forest_Area_%" then
    match r.vals .forestArea with | some v => .numVal v | none => .missing
  else .missing

/-- The scatter view: a warning, or one point per row plus the coloring flag. -/
inductive ScatterView
  | warn
  | chart (points : List (Cell × Cell)) (coloredByYear : Bool)

/-- The scatter renderer: if either chosen axis name is absent from the table's
columns a warning is shown; otherwise one point per row of the filtered table,
colored by `Year` exactly for the global (`"All"`) view. -/
def scatterView (xm ym sel : String) (table : List Row) : ScatterView :=
  if xm ∈ expectedColumns ∧ ym ∈ expectedColumns then
    .chart (table.map fun r => (cellOf xm r, cellOf ym r))
      (if sel = "All" then true else false)
  else .warn

/-! ## Sample data used by witnesses and counterexamples -/

/-- A sample observation row for country `"A"`. -/
def wRow1 : Row := { year := 2000, country := "A", vals := fun _ => some 1 }

/-- A sample observation row for country `"B"`. -/
def wRow2 : Row := { year := 2001, country := "B", vals := fun _ => some 2 }

/-- A small concrete observation table. -/
def wDf : List Row := [wRow1, wRow2]

/-! ## Claim theorems -/

/-- C6: for every selected country other than `"All"` the filter keeps exactly
rows of that country; selecting `"All"` keeps the row count unchanged. -/
theorem C6_filter_semantics (sel : String) (df : List Row) :
    (sel ≠ "All" → ∀ r ∈ dfFiltered sel df, r.country = sel) ∧
    (sel = "All" → (dfFiltered sel df).length = df.length) := by
  constructor
  · intro hsel r hr
    simp only [dfFiltered, if_pos hsel, List.mem_filter,
      decide_eq_true_eq] at hr
    exact hr.2
  · intro hsel
    simp [dfFiltered, hsel]

/-- Witness for C6 at a concrete table: filtering `wDf` by `"A"` marks its only
surviving row as country `"A"`, and filtering by `"All"` keeps both rows. -/
theorem C6_filter_semantics_witness :
    wRow1.country = "A" ∧ (dfFiltered "All" wDf).length = wDf.length := by
  have hfil : dfFiltered "A" wDf = [wRow1] := rfl
  refine ⟨(C6_filter_semantics "A" wDf).1 (by decide) wRow1 ?_,
    (C6_filter_semantics "All" wDf).2 rfl⟩
  rw [hfil]
  exact List.mem_singleton_self _

/-- C8: with no trend metric selected the yearly-trends view is a prompt and no
chart is produced; with at least one metric it is a chart with one line per
selected metric, whose points are the per-year means of that metric over the
filtered table, at exactly the distinct years of the table in ascending order. -/
theorem C8_trend_view (metrics : List NumField) (table : List Row) :
    (metrics = [] → trendView metrics table = .prompt) ∧
    (metrics ≠ [] →
      trendView metrics table =
        .chart (metrics.map fun m =>
          (m, (yearsOf table).map fun y => (y, yearlyMean m y table))) ∧
      (metrics.map fun m =>
        (m, (yearsOf table).map fun y => (y, yearlyMean m y table))).length =
          metrics.length) ∧
    (∀ y, y ∈ yearsOf table ↔ y ∈ table.map (fun r => r.year)) ∧
    List.Sorted (fun a b : Int => a ≤ b) (yearsOf table) := by
  refine ⟨fun h => by simp [trendView, h], fun h => ⟨by simp [trendView, h], by simp⟩,
    fun y => ?_, ?_⟩
  · rw [yearsOf, (List.perm_insertionSort _ _).mem_iff, List.mem_dedup]
  · exact List.sorted_insertionSort _ _

/-- Witness for C8 at concrete inputs: the empty selection prompts on `wDf`, and
the one-metric selection `[co2]` yields the one-line chart over years
`[2000, 2001]`. -/
theorem C8_trend_view_witness :
    trendView [] wDf = TrendView.prompt ∧
    trendView [NumField.co2] wDf =
      TrendView.chart [(NumField.co2,
        [((2000 : Int), yearlyMean NumField.co2 2000 wDf),
         ((2001 : Int), yearlyMean NumField.co2 2001 wDf)])] := by
  refine ⟨(C8_trend_view [] wDf).1 rfl, ?_⟩
  have h := ((C8_trend_view [NumField.co2] wDf).2.1 (by decide)).1
  rw [h]
  rfl

/-- C9: when either selected axis metric is not a column of the table a warning
replaces the chart; otherwise the scatter chart has one point per row of the
filtered table and is colored by `Year` exactly when the country selection is
`"All"`. -/
theorem C9_scatter_view (xm ym sel : String) (table : List Row) :
    ((xm ∉ expectedColumns ∨ ym ∉ expectedColumns) →
      scatterView xm ym sel table = .warn) ∧
    (xm ∈ expectedColumns → ym ∈ expectedColumns →
      scatterView xm ym sel table =
        .chart (table.map fun r => (cellOf xm r, cellOf ym r))
          (if sel = "All" then true else false) ∧
      (table.map fun r => (cellOf xm r, cellOf ym r)).length = table.length ∧
      ((if sel = "All" then true else false) = true ↔ sel = "All") ∧
      (∀ (i : ℕ) (r : Row), table[i]? = some r →
        (table.map fun r => (cellOf xm r, cellOf ym r))[i]? =
          some (cellOf xm r, cellOf ym r))) := by
  constructor
  · intro h
    rw [scatterView, if_neg (by tauto)]
  · intro hx hy
    refine ⟨by rw [scatterView, if_pos ⟨hx, hy⟩], by simp, by split <;> simp_all, ?_⟩
    intro i r hi
    simp [List.getElem?_map, hi]

/-- Witness for C9 at concrete inputs: a bogus axis name warns; the
`Year`/`Population` pair on `wDf` with selection `"All"` charts both rows,
colored by year, with the first point taken from the first row. -/
theorem C9_scatter_view_witness :
    scatterView "Bogus" "Population" "All" wDf = ScatterView.warn ∧
    scatterView "Year" "Population" "All" wDf =
      ScatterView.chart (wDf.map fun r => (cellOf "Year" r, cellOf "Population" r))
        (if "All" = "All" then true else false) ∧
    (wDf.map fun r => (cellOf "Year" r, cellOf "Population" r))[0]? =
      some (cellOf "Year" wRow1, cellOf "Population" wRow1) := by
  have h := (C9_scatter_view "Year" "Population" "All" wDf).2 (by decide) (by decide)
  exact ⟨(C9_scatter_view "Bogus" "Population" "All" wDf).1 (Or.inl (by decide)),
    h.1, h.2.2.2 0 wRow1 rfl⟩

/-- C7: a missing input file halts the session with the file-not-found message
and constructs neither table; any failure raised during load or transform
(here, the rename's length mismatch) likewise halts with a user-visible error,
with no partial results and no fallback dataset. -/
theorem C7_load_failure_modes :
    loadData none = .halted fileNotFoundMsg ∧
    (∀ df stats, loadData none ≠ .ok df stats) ∧
    (∀ t e, renameColumns t = .error e →
      loadData (some t) = .halted (loadErrorPrefix ++ e) ∧
      ∀ df stats, loadData (some t) ≠ .ok df stats) := by
  refine ⟨rfl, fun df stats h => by simp [loadData] at h, fun t e he => ?_⟩
  constructor
  · simp [loadData, he]
  · intro df stats h
    simp [loadData, he] at h

/-- A raw table with only nine columns, as a file with a differing column count. -/
def raw9 : RawTable :=
  { header := ["a", "b", "c", "d", "e", "f", "g", "h", "i"]
  , rows := [[Cell.intVal 2000, Cell.strVal "A", Cell.numVal 1, Cell.numVal 2,
      Cell.numVal 3, Cell.numVal 4, Cell.numVal 5, Cell.numVal 6, Cell.numVal 7]] }

/-- Witness for C7 at a concrete failing file: the nine-column table trips the
rename's length mismatch, and loading it halts with the generic error. -/
theorem C7_load_failure_modes_witness :
    loadData (some raw9) = LoadResult.halted (loadErrorPrefix ++ "Length mismatch") ∧
    loadData (some raw9) ≠ LoadResult.ok [] [] := by
  have h := C7_load_failure_modes.2.2 raw9 "Length mismatch" rfl
  exact ⟨h.1, h.2 [] []⟩

/-- C5 (amended): column renaming is positional — any ten-column file has its
header replaced wholesale by the fixed label list, its data untouched, so a
ten-column file in a different column order is silently mislabelled; but a file
whose column COUNT differs makes the rename raise a length mismatch, which the
generic handler turns into a user-visible error and a halt, rather than
producing a mislabelled table. -/
theorem C5_positional_rename (t : RawTable) :
    (t.header.length = 10 →
      renameColumns t = .ok { header := expectedColumns, rows := t.rows }) ∧
    (t.header.length ≠ 10 →
      renameColumns t = .error "Length mismatch" ∧
      loadData (some t) = .halted (loadErrorPrefix ++ "Length mismatch")) := by
  constructor
  · intro h
    rw [renameColumns, if_pos (by rw [h]; rfl)]
  · intro h
    have he : renameColumns t = .error "Length mismatch" := by
      rw [renameColumns, if_neg (by simpa [expectedColumns] using h)]
    exact ⟨he, by simp [loadData, he]⟩

/-- A ten-column raw table whose header is in a scrambled order: the country
name sits in the first column and the year in the second. -/
def rawShuffled : RawTable :=
  { header := ["Country", "Year", "Avg_Temperature_¬∞C", "CO2_Emissions_Tons/Capita",
      "Sea_Level_Rise_mm", "Rainfall_mm", "Population", "Renewable_Energy_%",
      "Extreme_Weather_Events", "Forest_Area_%"]
  , rows := [[Cell.strVal "A", Cell.intVal 2000, Cell.numVal 1, Cell.numVal 2,
      Cell.numVal 3, Cell.numVal 4, Cell.numVal 5, Cell.numVal 6, Cell.numVal 7,
      Cell.numVal 8]] }

/-- Witness for C5 at concrete files: the shuffled ten-column file is renamed
positionally without complaint (mislabelling its first two columns), while the
nine-column file halts the load. -/
theorem C5_positional_rename_witness :
    renameColumns rawShuffled =
      Except.ok { header := expectedColumns, rows := rawShuffled.rows } ∧
    loadData (some raw9) = LoadResult.halted (loadErrorPrefix ++ "Length mismatch") := by
  exact ⟨(C5_positional_rename rawShuffled).1 rfl,
    ((C5_positional_rename raw9).2 (by decide)).2⟩

/-- Counterexample to C5 as stated: a source file whose column count differs
(nine columns) does NOT still produce a table with wrong labels — the rename
raises, the loader surfaces an error and halts. -/
theorem C5_counterexample :
    raw9.header.length ≠ expectedColumns.length ∧
    renameColumns raw9 = Except.error "Length mismatch" ∧
    loadData (some raw9) = LoadResult.halted (loadErrorPrefix ++ "Length mismatch") ∧
    ∀ df stats, loadData (some raw9) ≠ LoadResult.ok df stats := by
  refine ⟨by decide, rfl, by simp [loadData, renameColumns, raw9, expectedColumns], ?_⟩
  intro df stats h
  simp [loadData, renameColumns, raw9, expectedColumns] at h

/-- C2: the summary table has exactly one row per distinct country — its
country column is a permutation of the distinct country values, so the row
count equals the number of distinct countries — and its rows are sorted in
descending order of mean CO2 emissions (`statGE`: every later defined mean is
at most every earlier one, missing means last). -/
theorem C2_summary_shape (df : List Row) :
    ((countryStats df).map (fun s => s.country)).Perm
      (df.map (fun r => r.country)).dedup ∧
    (countryStats df).length = ((df.map (fun r => r.country)).dedup).length ∧
    List.Sorted statGE (countryStats df) := by
  have hmap : ((countryKeys df).map (aggOf df)).map (fun s => s.country) =
      countryKeys df := by
    rw [List.map_map]
    have hid : ((fun s : CountryStat => s.country) ∘ aggOf df) = id :=
      funext fun c => rfl
    rw [hid, List.map_id]
  have hperm : ((countryStats df).map (fun s => s.country)).Perm
      (df.map (fun r => r.country)).dedup := by
    have h1 := (List.perm_insertionSort statGE
      ((countryKeys df).map (aggOf df))).map (fun s => s.country)
    rw [hmap] at h1
    exact h1
  have hsorted : List.Sorted statGE (countryStats df) :=
    List.sorted_insertionSort statGE _
  refine ⟨hperm, ?_, hsorted⟩
  have := hperm.length_eq
  simpa using this

/-- C10: imputation changes only missing entries — row count and row order are
preserved, every row keeps its `Year` and `Country`, and every non-missing cell
of every numeric column keeps its original value. -/
theorem C10_impute_frame (df : List Row) :
    (cleanData df).length = df.length ∧
    (cleanData df).map (fun r => (r.year, r.country)) =
      df.map (fun r => (r.year, r.country)) ∧
    (∀ (f : NumField) (i : ℕ) (v : ℚ), (colRaw f df)[i]? = some (some v) →
      (colRaw f (cleanData df))[i]? = some (some v)) := by
  refine ⟨length_cleanData df, yearCountry_cleanData df, ?_⟩
  intro f i v hv
  rw [colRaw_cleanData, imputeColList]
  cases medianQ ((colRaw f df).filterMap id) with
  | none => exact hv
  | some m => simp [List.getElem?_map, hv]

/-- A table with one present and one missing CO2 entry, used as witness data. -/
def dfMixed : List Row :=
  [{ year := 2000, country := "A",
     vals := fun g => if g = NumField.co2 then some 4 else some 0 },
   { year := 2001, country := "A",
     vals := fun g => if g = NumField.co2 then none else some 0 }]

/-- Witness for C10 at a concrete table: the present CO2 value `4` of the first
row of `dfMixed` survives imputation unchanged. -/
theorem C10_impute_frame_witness :
    (colRaw NumField.co2 (cleanData dfMixed))[0]? = some (some 4) :=
  (C10_impute_frame dfMixed).2.2 NumField.co2 0 4 rfl

/-- C1 (amended): for every numeric column except `Year` that has at least one
present value, the loaded table has no missing entry left in that column, and
each originally missing entry holds the column's median, computed over the full
table before any filtering.  (A column that is entirely missing keeps its
missing entries: its median is NaN and the fill is a no-op.) -/
theorem C1_imputation_fills (df : List Row) (f : NumField)
    (hne : colPresent f df ≠ []) :
    (∀ o ∈ colRaw f (cleanData df), o.isSome = true) ∧
    (∀ i : ℕ, (colRaw f df)[i]? = some none →
      (colRaw f (cleanData df))[i]? = some (medianQ (colPresent f df))) := by
  obtain ⟨m, hm⟩ : ∃ m, medianQ (colPresent f df) = some m := by
    rw [medianQ, if_neg hne]
    dsimp only
    split
    · exact ⟨_, rfl⟩
    · exact ⟨_, rfl⟩
  have hm' : medianQ ((colRaw f df).filterMap id) = some m := by
    rw [← colPresent_eq_filterMap]; exact hm
  constructor
  · intro o ho
    rw [colRaw_cleanData, imputeColList, hm'] at ho
    obtain ⟨x, _, hx⟩ := List.mem_map.mp ho
    rw [← hx]
    rfl
  · intro i hi
    rw [colRaw_cleanData, imputeColList, hm', List.getElem?_map, hi, hm]
    rfl

/-- Witness for C1 at the concrete table `dfMixed`: its missing CO2 entry (row
index 1) is replaced by the column's global median. -/
theorem C1_imputation_fills_witness :
    (colRaw NumField.co2 (cleanData dfMixed))[1]? =
      some (medianQ (colPresent NumField.co2 dfMixed)) :=
  (C1_imputation_fills dfMixed NumField.co2 (by decide)).2 1 rfl

/-- A one-row table whose CO2 column is entirely missing. -/
def dfAllMissing : List Row :=
  [{ year := 2000, country := "A",
     vals := fun g => if g = NumField.co2 then none else some 0 }]

/-- Counterexample to C1 as stated: on a ten-column input whose CO2 column is
entirely missing, the loaded table still has a missing CO2 entry — the claim's
"zero missing values in every numeric column except Year" fails. -/
theorem C1_counterexample :
    colRaw NumField.co2 (cleanData dfAllMissing) = [none] ∧
    ¬ (∀ o ∈ colRaw NumField.co2 (cleanData dfAllMissing), o.isSome = true) := by
  have h : colRaw NumField.co2 (cleanData dfAllMissing) = [none] := by
    rw [colRaw_cleanData]
    rfl
  refine ⟨h, fun hall => ?_⟩
  have := hall none (by rw [h]; exact List.mem_singleton_self _)
  simp at this

/-- Pairing a column with itself pairs each present value with itself. -/
theorem pairedVals_self (xs : List (Option ℚ)) :
    pairedVals xs xs = (xs.filterMap id).map (fun a => (a, a)) := by
  induction xs with
  | nil => rfl
  | cons o xs ih =>
    cases o with
    | none =>
      simp only [pairedVals, List.zip_cons_cons, List.filterMap_cons] at ih ⊢
      exact ih
    | some a =>
      simp only [pairedVals, List.zip_cons_cons, List.filterMap_cons,
        List.map_cons, id] at ih ⊢
      rw [ih]

/-- On a self-paired sample all three centered second moments coincide: each is
the sum of squared deviations from the mean. -/
theorem corrStats_self (qs : List ℚ) :
    corrStats (qs.map (fun a => (a, a))) =
      ((qs.map (fun a => (a - qs.sum / qs.length) ^ 2)).sum,
       (qs.map (fun a => (a - qs.sum / qs.length) ^ 2)).sum,
       (qs.map (fun a => (a - qs.sum / qs.length) ^ 2)).sum) := by
  unfold corrStats
  simp only [List.map_map, List.length_map]
  have h1 : (Prod.fst ∘ fun a : ℚ => (a, a)) = id := rfl
  have h2 : (Prod.snd ∘ fun a : ℚ => (a, a)) = id := rfl
  rw [h1, h2, List.map_id]
  have h3 : ((fun p : ℚ × ℚ => (p.1 - qs.sum / qs.length) *
      (p.2 - qs.sum / qs.length)) ∘ fun a : ℚ => (a, a)) =
      fun a : ℚ => (a - qs.sum / qs.length) ^ 2 := by
    funext a
    simp [Function.comp]
    ring
  have h4 : ((fun p : ℚ × ℚ => (p.1 - qs.sum / qs.length) ^ 2) ∘
      fun a : ℚ => (a, a)) = fun a : ℚ => (a - qs.sum / qs.length) ^ 2 := rfl
  have h5 : ((fun p : ℚ × ℚ => (p.2 - qs.sum / qs.length) ^ 2) ∘
      fun a : ℚ => (a, a)) = fun a : ℚ => (a - qs.sum / qs.length) ^ 2 := rfl
  rw [h3, h4, h5]

/-- A self-correlation with nonzero variance is exactly `1.0`. -/
theorem corrEntry_self_isOne (xs : List (Option ℚ))
    (h : (corrStats (pairedVals xs xs)).2.1 ≠ 0) :
    corrIsOne (corrEntry xs xs) := by
  rw [pairedVals_self, corrStats_self] at h
  set qs := xs.filterMap id with hqs
  set S := (qs.map (fun a => (a - qs.sum / qs.length) ^ 2)).sum with hS
  have hSne : S ≠ 0 := h
  have hCS : corrStats (pairedVals xs xs) = (S, S, S) := by
    rw [pairedVals_self, corrStats_self]
  have hSnn : 0 ≤ S := by
    rw [hS]
    exact List.sum_nonneg fun x hx => by
      obtain ⟨a, _, ha⟩ := List.mem_map.mp hx
      rw [← ha]
      exact sq_nonneg _
  have hentry : corrEntry xs xs = some ⟨S, S * S⟩ := by
    rw [corrEntry]
    simp only [hCS]
    rw [if_neg (mul_ne_zero hSne hSne)]
  exact ⟨⟨S, S * S⟩, hentry, hSnn, by rw [pow_two]⟩

/-- C4 (amended): with fewer than two selected metrics the correlation view is
an informational prompt with no matrix; with exactly two it is the 2×2 pairwise
Pearson matrix of those two columns of the filtered table, and each diagonal
entry equals `1.0` whenever its column has nonzero variance over the paired
observations — a constant column (e.g. a single-row table) instead yields an
undefined (NaN) diagonal entry. -/
theorem C4_corr_view (metrics : List NumField) (table : List Row) :
    (metrics.length < 2 → corrViewOf metrics table = .prompt) ∧
    (∀ f g, metrics = [f, g] →
      corrViewOf metrics table = .matrixView
        [[corrEntry (colRaw f table) (colRaw f table),
          corrEntry (colRaw f table) (colRaw g table)],
         [corrEntry (colRaw g table) (colRaw f table),
          corrEntry (colRaw g table) (colRaw g table)]]) ∧
    (∀ xs : List (Option ℚ), (corrStats (pairedVals xs xs)).2.1 ≠ 0 →
      corrIsOne (corrEntry xs xs)) := by
  refine ⟨fun h => by rw [corrViewOf, if_pos h], ?_, corrEntry_self_isOne⟩
  intro f g hm
  subst hm
  rw [corrViewOf, if_neg (by simp)]
  rfl

/-- Witness for C4 at concrete inputs: one selected metric prompts on `wDf`,
and a non-constant column correlates with itself at exactly `1.0`. -/
theorem C4_corr_view_witness :
    corrViewOf [NumField.co2] wDf = CorrView.prompt ∧
    corrIsOne (corrEntry [some (1 : ℚ), some 3] [some (1 : ℚ), some 3]) := by
  constructor
  · exact (C4_corr_view [NumField.co2] wDf).1 (by norm_num)
  · refine (C4_corr_view [] []).2.2 [some (1 : ℚ), some 3] ?_
    rw [pairedVals_self, corrStats_self]
    simp only [List.filterMap_cons, List.filterMap_nil, id]
    norm_num

/-- Counterexample to C4 as stated: on a single-row filtered table (a country
with one observation) both selected columns are constant, so every entry of the
2×2 matrix — the diagonal included — is NaN, not `1.0`. -/
theorem C4_counterexample :
    corrViewOf [NumField.co2, NumField.avgTemp] [wRow1] =
      CorrView.matrixView [[none, none], [none, none]] ∧
    ¬ corrIsOne none := by
  have hp : pairedVals [some (1 : ℚ)] [some 1] = [(1, 1)] := rfl
  have hs : corrStats [((1 : ℚ), (1 : ℚ))] = (0, 0, 0) := by
    simp [corrStats]
  have he : corrEntry [some (1 : ℚ)] [some 1] = none := by
    simp only [corrEntry, hp, hs]
    norm_num
  constructor
  · simp [corrViewOf, colRaw, wRow1, he]
  · simp [corrIsOne]

/-! ## The spec's two-country, two-year aggregation scenario -/

/-- One observation row with a fully-present metric vector. -/
def scenarioRow (y : Int) (c : String) (v : NumField → ℚ) : Row :=
  { year := y, country := c, vals := fun f => some (v f) }

/-- A dataset with two countries `"A"`, `"B"` and two years 2000, 2001, with
arbitrary metric vectors for each of the four observations. -/
def scenarioDf (v1 v2 v3 v4 : NumField → ℚ) : List Row :=
  [scenarioRow 2000 "A" v1, scenarioRow 2001 "A" v2,
   scenarioRow 2000 "B" v3, scenarioRow 2001 "B" v4]

/-- The expected aggregate of a two-observation country: the arithmetic mean of
the two values for every indicator, and their sum for the extreme-weather
count. -/
def pairAgg (c : String) (u v : NumField → ℚ) : CountryStat :=
  { country := c
  , avgTemp := some ((u .avgTemp + v .avgTemp) / 2)
  , avgCO2 := some ((u .co2 + v .co2) / 2)
  , avgSeaLevel := some ((u .seaLevel + v .seaLevel) / 2)
  , avgRainfall := some ((u .rainfall + v .rainfall) / 2)
  , avgRenewable := some ((u .renewable + v .renewable) / 2)
  , totalExtreme := u .extremeWeather + v .extremeWeather
  , avgForest := some ((u .forestArea + v .forestArea) / 2)
  , avgPopulation := some ((u .population + v .population) / 2) }

/-- The mean of a two-element sample is the arithmetic mean. -/
theorem meanQ_pair (a b : ℚ) : meanQ [a, b] = some ((a + b) / 2) := by
  rw [meanQ, if_neg (by simp)]
  norm_num

/-- Aggregating the scenario table for `"A"` yields the arithmetic means of its
two observations (and the sum of their event counts). -/
theorem aggOf_scenario_A (v1 v2 v3 v4 : NumField → ℚ) :
    aggOf (scenarioDf v1 v2 v3 v4) "A" = pairAgg "A" v1 v2 := by
  have hg : groupRows "A" (scenarioDf v1 v2 v3 v4) =
      [scenarioRow 2000 "A" v1, scenarioRow 2001 "A" v2] := rfl
  have hcp : ∀ f : NumField,
      colPresent f [scenarioRow 2000 "A" v1, scenarioRow 2001 "A" v2] =
        [v1 f, v2 f] := fun f => rfl
  simp only [aggOf, pairAgg, hg, hcp, meanQ_pair, List.sum_cons, List.sum_nil,
    add_zero]

/-- Aggregating the scenario table for `"B"` yields the arithmetic means of its
two observations (and the sum of their event counts). -/
theorem aggOf_scenario_B (v1 v2 v3 v4 : NumField → ℚ) :
    aggOf (scenarioDf v1 v2 v3 v4) "B" = pairAgg "B" v3 v4 := by
  have hg : groupRows "B" (scenarioDf v1 v2 v3 v4) =
      [scenarioRow 2000 "B" v3, scenarioRow 2001 "B" v4] := rfl
  have hcp : ∀ f : NumField,
      colPresent f [scenarioRow 2000 "B" v3, scenarioRow 2001 "B" v4] =
        [v3 f, v4 f] := fun f => rfl
  simp only [aggOf, pairAgg, hg, hcp, meanQ_pair, List.sum_cons, List.sum_nil,
    add_zero]

/-- The summary of the scenario table is the sort of the two aggregates. -/
theorem countryStats_scenario (v1 v2 v3 v4 : NumField → ℚ) :
    countryStats (scenarioDf v1 v2 v3 v4) =
      List.insertionSort statGE [pairAgg "A" v1 v2, pairAgg "B" v3 v4] := by
  have hkeys : (countryKeys (scenarioDf v1 v2 v3 v4)).map
      (aggOf (scenarioDf v1 v2 v3 v4)) =
      [aggOf (scenarioDf v1 v2 v3 v4) "A", aggOf (scenarioDf v1 v2 v3 v4) "B"] :=
    rfl
  rw [countryStats, hkeys, aggOf_scenario_A, aggOf_scenario_B]

/-- Sorting a two-element list just compares the two elements. -/
theorem insertionSort_pair (x y : CountryStat) :
    List.insertionSort statGE [x, y] = if statGE x y then [x, y] else [y, x] := by
  simp [List.insertionSort, List.orderedInsert]

/-- C3: on the two-country, two-year scenario the aggregation yields, for each
country, the arithmetic mean of its two yearly values for temperature, CO2,
sea level, rainfall, renewable share, forest share and population, and the sum
of its two extreme-weather counts; and the top-1 country by mean CO2 emissions
is the country with the strictly higher mean. -/
theorem C3_aggregation_scenario (v1 v2 v3 v4 : NumField → ℚ) :
    statFor (scenarioDf v1 v2 v3 v4) "A" = some (pairAgg "A" v1 v2) ∧
    statFor (scenarioDf v1 v2 v3 v4) "B" = some (pairAgg "B" v3 v4) ∧
    ((v3 .co2 + v4 .co2) / 2 < (v1 .co2 + v2 .co2) / 2 →
      (nlargestCO2 1 (countryStats (scenarioDf v1 v2 v3 v4))).map
        (fun s => s.country) = ["A"]) ∧
    ((v1 .co2 + v2 .co2) / 2 < (v3 .co2 + v4 .co2) / 2 →
      (nlargestCO2 1 (countryStats (scenarioDf v1 v2 v3 v4))).map
        (fun s => s.country) = ["B"]) := by
  refine ⟨?_, ?_, ?_, ?_⟩
  · rw [statFor, countryStats_scenario, insertionSort_pair]
    by_cases h : statGE (pairAgg "A" v1 v2) (pairAgg "B" v3 v4)
    · rw [if_pos h]
      simp [List.find?, pairAgg]
    · rw [if_neg h]
      simp [List.find?, pairAgg]
  · rw [statFor, countryStats_scenario, insertionSort_pair]
    by_cases h : statGE (pairAgg "A" v1 v2) (pairAgg "B" v3 v4)
    · rw [if_pos h]
      simp [List.find?, pairAgg]
    · rw [if_neg h]
      simp [List.find?, pairAgg]
  · intro hlt
    have hge : statGE (pairAgg "A" v1 v2) (pairAgg "B" v3 v4) := le_of_lt hlt
    rw [nlargestCO2, countryStats_scenario, insertionSort_pair, if_pos hge,
      insertionSort_pair, if_pos hge]
    rfl
  · intro hlt
    have hnge : ¬ statGE (pairAgg "A" v1 v2) (pairAgg "B" v3 v4) :=
      not_le.mpr hlt
    have hge : statGE (pairAgg "B" v3 v4) (pairAgg "A" v1 v2) := le_of_lt hlt
    rw [nlargestCO2, countryStats_scenario, insertionSort_pair, if_neg hnge,
      insertionSort_pair, if_pos hge]
    rfl

/-- Witness for C3 at concrete metric vectors: with per-country CO2 means 5 and
2 the top-1 country is `"A"`, with the means swapped it is `"B"`, and the `"A"`
summary row holds the expected pair of means. -/
theorem C3_aggregation_scenario_witness :
    (nlargestCO2 1 (countryStats (scenarioDf (fun _ => 4) (fun _ => 6)
      (fun _ => 1) (fun _ => 3)))).map (fun s => s.country) = ["A"] ∧
    (nlargestCO2 1 (countryStats (scenarioDf (fun _ => 1) (fun _ => 3)
      (fun _ => 4) (fun _ => 6)))).map (fun s => s.country) = ["B"] ∧
    statFor (scenarioDf (fun _ => 4) (fun _ => 6) (fun _ => 1) (fun _ => 3)) "A" =
      some (pairAgg "A" (fun _ => 4) (fun _ => 6)) :=
  ⟨(C3_aggregation_scenario _ _ _ _).2.2.1 (by norm_num),
   (C3_aggregation_scenario _ _ _ _).2.2.2 (by norm_num),
   (C3_aggregation_scenario _ _ _ _).1⟩
